import Mathlib

/-!
Verification of the node e2e test runner (`test/e2e_node/runner/run_e2e.go`).

The Go program is shallowly embedded: external collaborators (the GCE compute
API, the remote shell, the archive builder) are oracles passed in as explicit
data, and each Go function that the claims mention is translated into a pure
Lean function over those oracles.  Side effects that the claims talk about
(how many times an external call was issued, which files exist on disk,
whether the deferred cleanup ran) are made explicit in the return values.
-/

set_option maxRecDepth 4096

/-- Embedding of Go `strings.ToUpper` restricted to the ASCII statuses the
runner compares (Go uses full Unicode case mapping; the statuses involved are
ASCII, where `Char.toUpper` agrees). -/
def strToUpper (s : String) : String := String.mk (s.data.map Char.toUpper)

/-- Helper for `strContains`: the first list is a leading segment of the second. -/
def leadsWith : List Char → List Char → Bool
  | [], _ => true
  | _ :: _, [] => false
  | a :: as, b :: bs => a == b && leadsWith as bs

/-- Helper for `strContains`: the first list occurs inside the second. -/
def containsSub (sub : List Char) : List Char → Bool
  | [] => leadsWith sub []
  | c :: cs => leadsWith sub (c :: cs) || containsSub sub cs

/-- Embedding of Go `strings.Contains(s, sub)`. -/
def strContains (s sub : String) : Bool := containsSub sub.data s.data

/-! ## Data model (from `run_e2e.go`) -/

/-- Embedding of `compute.AccessConfig` (only the field the runner reads). -/
structure AccessConfig where
  natIP : String
  deriving DecidableEq

/-- Embedding of `compute.NetworkInterface` (only the field the runner reads). -/
structure NetworkInterface where
  accessConfigs : List AccessConfig
  deriving DecidableEq

/-- Embedding of `compute.Instance` as seen by the runner: the status string
and the network interfaces that `getExternalIp` scans. -/
structure Instance where
  status : String
  networkInterfaces : List NetworkInterface
  deriving DecidableEq

/-- Outcome of a `computeService.Instances.Get(...).Do()` call: either a Go
error (its message) or the instance record. -/
inductive GetResult where
  | err (msg : String)
  | ok (inst : Instance)
  deriving DecidableEq

/-- Embedding of the runner's `TestResult` struct.  Go `error` values are
`Option String` (`none` = nil).  Fields left unset by a Go struct literal get
their zero values (`""`, `none`, `false`), exactly as in the source. -/
structure TestResult where
  output : String
  err : Option String
  host : String
  exitOk : Bool
  deriving DecidableEq

/-- Response of one `e2e_node.RunRemote` call (external collaborator):
combined output, remote exit status, and transport error. -/
structure RunRemoteOut where
  output : String
  exitOk : Bool
  err : Option String
  deriving DecidableEq

/-- Oracle for the external calls `testHost` makes for one host: the compute
`Instances.Get` response and the `RunRemote` response. -/
structure HostEnv where
  getInstance : GetResult
  runRemote : RunRemoteOut
  deriving DecidableEq

/-- Record of which external effects a `testHost` call performed: whether the
archive was read, whether `RunRemote` was invoked, and the
`AddHostnameIp(host, ip)` registration if one happened. -/
structure HostTrace where
  archiveRead : Bool
  remoteCalled : Bool
  ipRegistered : Option (String × String)
  deriving DecidableEq

/-- Outcome of the `computeService.Instances.Insert(...).Do()` call in
`createInstance`: `err` is the error returned by `Do`, `opError` models a
non-nil `op.Error` field on a successful call. -/
structure InsertResult where
  err : Option String
  opError : Option String
  deriving DecidableEq

/-- Oracle for the external calls `createInstance` makes: the insert outcome,
the `Instances.Get` response for each status poll (indexed by poll number),
and the `RunSshCommand "... docker version"` response for each verification
probe (indexed by probe number, as `(output, err)`). -/
structure ComputeEnv where
  insertRes : InsertResult
  get : Nat → GetResult
  ssh : Nat → String × Option String

/-- Embedding of `getExternalIp`'s inner loop over one interface's access
configs: first non-empty `NatIP`, if any. -/
def firstNatIpAcs : List AccessConfig → Option String
  | [] => none
  | ac :: rest => if ac.natIP.length > 0 then some ac.natIP else firstNatIpAcs rest

/-- Embedding of `getExternalIp`'s outer loop over network interfaces. -/
def getExternalIpNis : List NetworkInterface → String
  | [] => ""
  | ni :: rest =>
    match firstNatIpAcs ni.accessConfigs with
    | some ip => ip
    | none => getExternalIpNis rest

/-- Embedding of `getExternalIp`: first non-empty `NatIP` across all access
configs of all network interfaces, else `""`. -/
def getExternalIp (inst : Instance) : String := getExternalIpNis inst.networkInterfaces

/-- Embedding of `imageToInstanceName`: instance-name prefix, a dash, and the
image name. -/
def imageToInstanceName (namePfx image : String) : String := namePfx ++ "-" ++ image

/-! ## Target executor: `testHost` -/

/-- Embedding of `testHost(host, deleteFiles, junitFileNum, setupNode)`.

The Go function, in order: queries `Instances.Get(*project, *zone, host)`;
on error returns `TestResult{err, host, exitOk:false}`; if the status is not
`RUNNING` (after `ToUpper`) returns the analogous result; otherwise registers
the external IP when non-empty, reads the shared archive (`arc.getArchive()`),
on archive error returns a `TestResult` with only `err` set (so `host` is the
zero value `""`), and finally passes `RunRemote`'s
`(output, exitOk, err)` through into the `TestResult`.

`arcRes` is the memoized `(path, err)` pair of the shared archive (see
`getArchiveW`); `deleteFiles` only parametrizes the opaque `RunRemote` call
and does not influence control flow here.  Alongside the `TestResult` the
model returns a `HostTrace` of the external effects performed. -/
def testHost (env : HostEnv) (arcRes : String × Option String) (host : String)
    (deleteFiles : Bool) : TestResult × HostTrace :=
  let _ := deleteFiles
  match env.getInstance with
  | GetResult.err e =>
    ({ output := "", err := some e, host := host, exitOk := false },
     { archiveRead := false, remoteCalled := false, ipRegistered := none })
  | GetResult.ok inst =>
    if strToUpper inst.status != "RUNNING" then
      ({ output := "",
         err := some ("instance " ++ host ++ " not in state RUNNING, was " ++ inst.status ++ "."),
         host := host, exitOk := false },
       { archiveRead := false, remoteCalled := false, ipRegistered := none })
    else
      let externalIp := getExternalIp inst
      let reg := if externalIp.length > 0 then some (host, externalIp) else none
      match arcRes.2 with
      | some e =>
        ({ output := "", err := some ("unable to create test archive " ++ e ++ "."),
           host := "", exitOk := false },
         { archiveRead := true, remoteCalled := false, ipRegistered := reg })
      | none =>
        ({ output := env.runRemote.output, err := env.runRemote.err,
           host := host, exitOk := env.runRemote.exitOk },
         { archiveRead := true, remoteCalled := true, ipRegistered := reg })

/-! ## Instance provisioner: `createInstance` -/

/-- Outcome of one iteration of `createInstance`'s polling loop: either the
iteration established `instanceRunning = true`, or it failed with the error
message the iteration assigned to `err`, recording whether the ssh
verification probe was issued.  `regs` carries the `AddHostnameIp`
registrations made so far. -/
inductive AttemptOut where
  | done (regs : List (String × String))
  | fail (e : String) (usedSsh : Bool) (regs : List (String × String))
  deriving DecidableEq

/-- One iteration of the polling loop body in `createInstance`: poll
`Instances.Get`; on error fail; if the status (upper-cased) is not `RUNNING`
fail; otherwise register the external IP when non-empty and issue the remote
`sudo docker version` probe: a probe error fails, an output without
`"Server"` fails, otherwise the instance is running and verified. -/
def attemptStep (env : ComputeEnv) (name : String) (i sshIdx : Nat)
    (regs : List (String × String)) : AttemptOut :=
  match env.get i with
  | GetResult.err e => AttemptOut.fail e false regs
  | GetResult.ok inst =>
    if strToUpper inst.status != "RUNNING" then
      AttemptOut.fail
        ("instance " ++ name ++ " not in state RUNNING, was " ++ inst.status ++ ".") false regs
    else
      let externalIp := getExternalIp inst
      let regs1 := if externalIp.length > 0 then regs ++ [(name, externalIp)] else regs
      let probe := env.ssh sshIdx
      match probe.2 with
      | some _ =>
        AttemptOut.fail
          ("instance " ++ name ++ " not running docker daemon - Command failed: " ++ probe.1)
          true regs1
      | none =>
        if strContains probe.1 "Server" then AttemptOut.done regs1
        else
          AttemptOut.fail
            ("instance " ++ name ++ " not running docker daemon - Server not found: " ++ probe.1)
            true regs1

/-- Loop-carried state of the polling loop: next poll index `i`, next ssh
probe index `sshIdx`, accumulated sleep seconds, the current `err` variable,
and the `AddHostnameIp` registrations so far. -/
structure LoopSt where
  i : Nat
  sshIdx : Nat
  sleepSec : Nat
  err : Option String
  regs : List (String × String)
  deriving DecidableEq

/-- Result of `createInstance`: the returned `(name, err)` pair plus the
observable effect counts — status polls issued, ssh verification probes
issued, total seconds slept, whether the loop ended with
`instanceRunning = true`, and the IP registrations performed. -/
structure ProvisionOut where
  name : String
  err : Option String
  polls : Nat
  sshCalls : Nat
  sleepSec : Nat
  success : Bool
  ipRegs : List (String × String)
  deriving DecidableEq

/-- Embedding of the loop `for i := 0; i < 30 && !instanceRunning; i++` in
`createInstance`, with `fuel` the remaining iterations (`fuel = 30 - st.i` at
the top-level call).  Each executed iteration first sleeps 20 seconds when
`i > 0`, then runs `attemptStep`; a failing iteration stores its error in
`err` and continues. -/
def pollLoop (env : ComputeEnv) (name : String) : Nat → LoopSt → ProvisionOut
  | 0, st =>
    { name := name, err := st.err, polls := st.i, sshCalls := st.sshIdx,
      sleepSec := st.sleepSec, success := false, ipRegs := st.regs }
  | fuel + 1, st =>
    let sl := if st.i > 0 then st.sleepSec + 20 else st.sleepSec
    match attemptStep env name st.i st.sshIdx st.regs with
    | AttemptOut.done regs =>
      { name := name, err := none, polls := st.i + 1, sshCalls := st.sshIdx + 1,
        sleepSec := sl, success := true, ipRegs := regs }
    | AttemptOut.fail e usedSsh regs =>
      pollLoop env name fuel
        { i := st.i + 1, sshIdx := st.sshIdx + (if usedSsh then 1 else 0),
          sleepSec := sl, err := some e, regs := regs }

/-- Embedding of `createInstance(image, imageProject)`: issue the insert call
(returning `("", err)` on an error or a non-nil `op.Error`), then run the
30-attempt polling loop. -/
def createInstance (env : ComputeEnv) (namePfx image : String) : ProvisionOut :=
  let name := imageToInstanceName namePfx image
  match env.insertRes.err with
  | some e =>
    { name := "", err := some e, polls := 0, sshCalls := 0, sleepSec := 0,
      success := false, ipRegs := [] }
  | none =>
    match env.insertRes.opError with
    | some oe =>
      { name := "", err := some ("could not create instance " ++ name ++ ": " ++ oe),
        polls := 0, sshCalls := 0, sleepSec := 0, success := false, ipRegs := [] }
    | none =>
      pollLoop env name 30 { i := 0, sshIdx := 0, sleepSec := 0, err := none, regs := [] }

/-! ## `testImage` and `deleteInstance` -/

/-- Result of `testImage`: the `TestResult` it returns plus how many
`deleteInstance` calls were issued for the target. -/
structure ImageOut where
  result : TestResult
  deleteCalls : Nat
  prov : ProvisionOut

/-- Embedding of `testImage(image, imageProject, junitFileNum)`: provision via
`createInstance`; when the `--delete-instances` flag is set, a deferred
`deleteInstance(image)` is registered (it runs exactly once, whatever happens
afterwards, and its own error — `deleteErr` — is only logged, never read);
a provisioning error yields a `TestResult` with only `err` set; otherwise the
target runs `testHost` with `deleteFiles = !deleteInstancesFlag && cleanupFlag`.
`henvOf` supplies the host oracle for the provisioned instance's name. -/
def testImage (cenv : ComputeEnv) (henvOf : String → HostEnv)
    (arcRes : String × Option String) (namePfx image : String)
    (deleteInstancesFlag cleanupFlag : Bool) (deleteErr : Option String) : ImageOut :=
  let _ := deleteErr
  let prov := createInstance cenv namePfx image
  let del := if deleteInstancesFlag then 1 else 0
  match prov.err with
  | some e =>
    let r : TestResult :=
      { output := "",
        err := some ("unable to create gce instance with running docker daemon for image "
          ++ image ++ ".  " ++ e),
        host := "", exitOk := false }
    { result := r, deleteCalls := del, prov := prov }
  | none =>
    let deleteFiles := !deleteInstancesFlag && cleanupFlag
    { result := (testHost (henvOf prov.name) arcRes prov.name deleteFiles).1,
      deleteCalls := del, prov := prov }

/-! ## Bundle builder: the `Archive` struct -/

/-- Embedding of the `Archive` struct: the `sync.Once` flag together with the
memoized `path` and `err` fields. -/
structure ArchiveState where
  done : Bool
  path : String
  err : Option String
  deriving DecidableEq

/-- The zero-valued `Archive` at process start. -/
def arcInit : ArchiveState := { done := false, path := "", err := none }

/-- Process-visible state for the archive claims: the `Archive` struct plus
the set of files on disk (a duplicate-free list of paths). -/
structure World where
  arc : ArchiveState
  fs : List String
  deriving DecidableEq

/-- Modelled from the spec: `e2e_node.CreateTestArchive` is not under `src/`;
per the spec the Bundle Builder "produces the test artifact path", so a
successful construction with result `(path, none)` places `path` on disk and
a failed one leaves the disk unchanged. -/
def buildFs (build : String × Option String) (fs : List String) : List String :=
  match build.2 with
  | none => if build.1 ∈ fs then fs else fs ++ [build.1]
  | some _ => fs

/-- Embedding of `(a *Archive) getArchive()`: under the `sync.Once` the first
call runs `CreateTestArchive` (whose outcome is the oracle `build`) and
memoizes `(path, err)`; every call returns the memoized pair.  `sync.Once`
serializes concurrent callers, so calls are modelled as atomic steps.  The
third component counts how many times `CreateTestArchive` ran during the
call. -/
def getArchiveW (build : String × Option String) (w : World) :
    (String × Option String) × World × Nat :=
  if w.arc.done then ((w.arc.path, w.arc.err), w, 0)
  else
    ((build.1, build.2),
     { arc := { done := true, path := build.1, err := build.2 },
       fs := buildFs build w.fs }, 1)

/-- A sequence of `n` calls to `getArchive` (concurrent callers are serialized
by the `sync.Once`): the list of returned pairs, the final state, and the
total number of `CreateTestArchive` executions. -/
def getArchiveIter (build : String × Option String) :
    Nat → World → List (String × Option String) × World × Nat
  | 0, w => ([], w, 0)
  | n + 1, w =>
    let (r, w1, c) := getArchiveW build w
    let (rs, w2, cs) := getArchiveIter build n w1
    (r :: rs, w2, c + cs)

/-- Embedding of `os.Remove(path)` on the modelled disk (its error — e.g. the
file being absent — is discarded by `deleteArchive`, so only the disk state
matters). -/
def osRemove (p : String) (fs : List String) : List String :=
  fs.filter (fun q => q != p)

/-- Embedding of `(a *Archive) deleteArchive()`: call `getArchive` (which
triggers construction when it never ran), return without touching the disk
when the memoized error is non-nil, otherwise `os.Remove` the memoized
path. -/
def deleteArchiveW (build : String × Option String) (w : World) : World :=
  let step := getArchiveW build w
  match step.1.2 with
  | some _ => step.2.1
  | none => { arc := step.2.1.arc, fs := osRemove step.1.1 step.2.1.fs }

/-! ## Orchestrator: `main`'s fan-out, receive loop and exit -/

/-- Embedding of the receive loop's `exitOk` accumulator: `exitOk` starts
`true` and each received result is folded in with `exitOk = exitOk && tr.exitOk`. -/
def loopExitOk (arrival : List TestResult) : Bool :=
  arrival.foldl (fun acc tr => acc && tr.exitOk) true

/-- Embedding of the receive loop's `errCount` accumulator. -/
def loopErrCount (arrival : List TestResult) : Nat :=
  arrival.foldl (fun n tr => if tr.err.isSome then n + 1 else n) 0

/-- What `main` does after the receive loop.  `exitCode` is the process exit
code; `deferredDeleteRan` records whether the deferred `arc.deleteArchive()`
executed: Go's `os.Exit` terminates the process immediately *without running
deferred functions*, so on the `!exitOk` path (`os.Exit(1)`) the deferred
call is skipped, while a normal return from `main` (exit code 0) runs it. -/
structure MainOut where
  exitCode : Nat
  deferredDeleteRan : Bool
  deriving DecidableEq

/-- Embedding of `main`'s tail: fold the received results, then either return
normally (exit 0, deferred `deleteArchive` runs) or call `os.Exit(1)`
(deferred `deleteArchive` skipped). -/
def mainOutcome (arrival : List TestResult) : MainOut :=
  if loopExitOk arrival then { exitCode := 0, deferredDeleteRan := true }
  else { exitCode := 1, deferredDeleteRan := false }

/-- Configuration of one `main` run for the orchestration claims: the
image-based targets (image, image project), the fixed hosts from `--hosts`,
the per-target oracles, the shared memoized archive pair, and the flags. -/
structure MainCfg where
  images : List (String × String)
  hosts : List String
  cenvOf : String × String → ComputeEnv
  henvOf : String → HostEnv
  deleteErrOf : String × String → Option String
  arcRes : String × Option String
  namePfx : String
  deleteInstancesFlag : Bool
  cleanupFlag : Bool

/-- The multiset of results the spawned goroutines send on the result
channel: one `testImage` result per image-based target and one `testHost`
result per fixed host (`main` passes `*cleanup` as `deleteFiles` for fixed
hosts).  `running`, the number of receives `main` performs, equals the length
of this list. -/
def spawnResults (c : MainCfg) : List TestResult :=
  c.images.map (fun ip =>
    (testImage (c.cenvOf ip) c.henvOf c.arcRes c.namePfx ip.1
      c.deleteInstancesFlag c.cleanupFlag (c.deleteErrOf ip)).result)
  ++ c.hosts.map (fun h => (testHost (c.henvOf h) c.arcRes h c.cleanupFlag).1)

/-! ## Abbreviations for the loop proofs -/

/-- The loop-state update a failing iteration performs. -/
def stepSt (st : LoopSt) (u : Bool) (e : String) (regs : List (String × String)) : LoopSt :=
  ⟨st.i + 1, st.sshIdx + (if u then 1 else 0),
   (if st.i > 0 then st.sleepSec + 20 else st.sleepSec), some e, regs⟩

/-- The result a succeeding iteration produces. -/
def doneOut (name : String) (st : LoopSt) (regs : List (String × String)) : ProvisionOut :=
  ⟨name, none, st.i + 1, st.sshIdx + 1,
   (if st.i > 0 then st.sleepSec + 20 else st.sleepSec), true, regs⟩

/-- The initial loop state of `createInstance`'s polling loop. -/
def st0 : LoopSt := ⟨0, 0, 0, none, []⟩

/-! ## Concrete fixtures used by witnesses and counterexamples -/

/-- An instance record in a not-yet-running provisioning state. -/
def instPending : Instance := ⟨"PROVISIONING", []⟩

/-- A running instance record with one external NAT address. -/
def instRunning : Instance := ⟨"RUNNING", [⟨[⟨"104.154.1.2"⟩]⟩]⟩

/-- A stopped instance record. -/
def instStopped : Instance := ⟨"STOPPED", []⟩

/-- A `docker version` output that contains the `"Server"` marker. -/
def dockerGood : String := "Client: 1.9.1, Server: 1.9.1"

/-- Compute oracle for the spec scenario of claim C4: not running on polls 0
and 1, running on poll 2, verification probe succeeding immediately. -/
def envC4 : ComputeEnv :=
  ⟨⟨none, none⟩, fun i => if i < 2 then GetResult.ok instPending else GetResult.ok instRunning,
   fun _ => (dockerGood, none)⟩

/-- Compute oracle whose instance is always running but whose verification
probe output never contains `"Server"`. -/
def envProbeFail : ComputeEnv :=
  ⟨⟨none, none⟩, fun _ => GetResult.ok instRunning, fun _ => ("Client only", none)⟩

/-- Compute oracle whose status polls always return a read error. -/
def envAllErr : ComputeEnv :=
  ⟨⟨none, none⟩, fun _ => GetResult.err "connection refused", fun _ => ("", some "unreachable")⟩

/-- Host oracle: instance running, remote suite passes. -/
def henvRunOk : HostEnv := ⟨GetResult.ok instRunning, ⟨"PASS: 10 tests", true, none⟩⟩

/-- Host oracle: instance running, remote suite ran and exited non-zero. -/
def henvAssertFail : HostEnv := ⟨GetResult.ok instRunning, ⟨"FAIL: 1 test", false, none⟩⟩

/-- Host oracle: the compute lookup fails (unreachable target). -/
def henvUnreach : HostEnv := ⟨GetResult.err "dial tcp: i/o timeout", ⟨"", false, some "unused"⟩⟩

/-- Host oracle: the compute lookup reports a stopped instance. -/
def henvStopped : HostEnv := ⟨GetResult.ok instStopped, ⟨"", false, none⟩⟩

/-- A successfully memoized archive pair. -/
def arcOk : String × Option String := ("/tmp/e2e_node_test.tar.gz", none)

/-- A failed archive construction pair. -/
def arcBad : String × Option String := ("", some "build failed")

/-- A one-image, one-host run configuration. -/
def cfgC1 : MainCfg :=
  ⟨[("img1", "proj1")], ["host1"], fun _ => envC4, fun _ => henvRunOk, fun _ => none,
   arcOk, "tmp-node", true, true⟩

/-- A two-host run whose shared archive construction failed. -/
def cfgC8 : MainCfg :=
  ⟨[], ["h1", "h2"], fun _ => envC4, fun _ => henvRunOk, fun _ => none,
   arcBad, "tmp-node", true, true⟩

/-- A result of a target whose remote suite failed (exit non-zero). -/
def trC7fail : TestResult := ⟨"--- FAIL: suite", none, "host1", false⟩

/-- A result of a target whose remote suite passed. -/
def trC7ok : TestResult := ⟨"ok", none, "host1", true⟩

/-! ## Helper lemmas -/

@[simp] theorem stepSt_i (st : LoopSt) (u : Bool) (e : String) (regs : List (String × String)) :
    (stepSt st u e regs).i = st.i + 1 := rfl

@[simp] theorem stepSt_sshIdx (st : LoopSt) (u : Bool) (e : String)
    (regs : List (String × String)) :
    (stepSt st u e regs).sshIdx = st.sshIdx + (if u then 1 else 0) := rfl

@[simp] theorem stepSt_sleepSec (st : LoopSt) (u : Bool) (e : String)
    (regs : List (String × String)) :
    (stepSt st u e regs).sleepSec = (if st.i > 0 then st.sleepSec + 20 else st.sleepSec) := rfl

@[simp] theorem stepSt_err (st : LoopSt) (u : Bool) (e : String)
    (regs : List (String × String)) :
    (stepSt st u e regs).err = some e := rfl

@[simp] theorem doneOut_polls (name : String) (st : LoopSt) (regs : List (String × String)) :
    (doneOut name st regs).polls = st.i + 1 := rfl

@[simp] theorem doneOut_sshCalls (name : String) (st : LoopSt) (regs : List (String × String)) :
    (doneOut name st regs).sshCalls = st.sshIdx + 1 := rfl

@[simp] theorem doneOut_sleepSec (name : String) (st : LoopSt) (regs : List (String × String)) :
    (doneOut name st regs).sleepSec
      = (if st.i > 0 then st.sleepSec + 20 else st.sleepSec) := rfl

@[simp] theorem doneOut_success (name : String) (st : LoopSt) (regs : List (String × String)) :
    (doneOut name st regs).success = true := rfl

@[simp] theorem doneOut_err (name : String) (st : LoopSt) (regs : List (String × String)) :
    (doneOut name st regs).err = none := rfl

theorem pollLoop_step_done (env : ComputeEnv) (name : String) (fuel : Nat) (st : LoopSt)
    (regs : List (String × String))
    (hA : attemptStep env name st.i st.sshIdx st.regs = AttemptOut.done regs) :
    pollLoop env name (fuel + 1) st = doneOut name st regs := by
  show (let sl := if st.i > 0 then st.sleepSec + 20 else st.sleepSec
        match attemptStep env name st.i st.sshIdx st.regs with
        | AttemptOut.done regs =>
          { name := name, err := none, polls := st.i + 1, sshCalls := st.sshIdx + 1,
            sleepSec := sl, success := true, ipRegs := regs }
        | AttemptOut.fail e usedSsh regs =>
          pollLoop env name fuel
            { i := st.i + 1, sshIdx := st.sshIdx + (if usedSsh then 1 else 0),
              sleepSec := sl, err := some e, regs := regs }) = doneOut name st regs
  rw [hA]
  rfl

theorem pollLoop_step_fail (env : ComputeEnv) (name : String) (fuel : Nat) (st : LoopSt)
    (e : String) (u : Bool) (regs : List (String × String))
    (hA : attemptStep env name st.i st.sshIdx st.regs = AttemptOut.fail e u regs) :
    pollLoop env name (fuel + 1) st = pollLoop env name fuel (stepSt st u e regs) := by
  show (let sl := if st.i > 0 then st.sleepSec + 20 else st.sleepSec
        match attemptStep env name st.i st.sshIdx st.regs with
        | AttemptOut.done regs =>
          { name := name, err := none, polls := st.i + 1, sshCalls := st.sshIdx + 1,
            sleepSec := sl, success := true, ipRegs := regs }
        | AttemptOut.fail e usedSsh regs =>
          pollLoop env name fuel
            { i := st.i + 1, sshIdx := st.sshIdx + (if usedSsh then 1 else 0),
              sleepSec := sl, err := some e, regs := regs })
      = pollLoop env name fuel (stepSt st u e regs)
  rw [hA]
  rfl

theorem pollLoop_polls_ge (env : ComputeEnv) (name : String) :
    ∀ (fuel : Nat) (st : LoopSt), st.i ≤ (pollLoop env name fuel st).polls := by
  intro fuel
  induction fuel with
  | zero => intro st; simp [pollLoop]
  | succ f ih =>
    intro st
    cases hA : attemptStep env name st.i st.sshIdx st.regs with
    | done regs => rw [pollLoop_step_done env name f st regs hA]; simp
    | fail e u regs =>
      rw [pollLoop_step_fail env name f st e u regs hA]
      have := ih (stepSt st u e regs)
      simp only [stepSt_i] at this
      omega

theorem pollLoop_polls_le (env : ComputeEnv) (name : String) :
    ∀ (fuel : Nat) (st : LoopSt), (pollLoop env name fuel st).polls ≤ st.i + fuel := by
  intro fuel
  induction fuel with
  | zero => intro st; simp [pollLoop]
  | succ f ih =>
    intro st
    cases hA : attemptStep env name st.i st.sshIdx st.regs with
    | done regs => rw [pollLoop_step_done env name f st regs hA]; simp
    | fail e u regs =>
      rw [pollLoop_step_fail env name f st e u regs hA]
      have := ih (stepSt st u e regs)
      simp only [stepSt_i] at this
      omega

theorem pollLoop_fail_polls (env : ComputeEnv) (name : String) :
    ∀ (fuel : Nat) (st : LoopSt), (pollLoop env name fuel st).success = false →
      (pollLoop env name fuel st).polls = st.i + fuel := by
  intro fuel
  induction fuel with
  | zero => intro st _; simp [pollLoop]
  | succ f ih =>
    intro st hs
    cases hA : attemptStep env name st.i st.sshIdx st.regs with
    | done regs =>
      rw [pollLoop_step_done env name f st regs hA] at hs
      simp at hs
    | fail e u regs =>
      rw [pollLoop_step_fail env name f st e u regs hA] at hs ⊢
      have := ih (stepSt st u e regs) hs
      simp only [stepSt_i] at this
      omega

theorem pollLoop_fail_err_of_some (env : ComputeEnv) (name : String) :
    ∀ (fuel : Nat) (st : LoopSt), st.err.isSome →
      (pollLoop env name fuel st).success = false →
      (pollLoop env name fuel st).err.isSome := by
  intro fuel
  induction fuel with
  | zero => intro st he _; simpa [pollLoop] using he
  | succ f ih =>
    intro st he hs
    cases hA : attemptStep env name st.i st.sshIdx st.regs with
    | done regs =>
      rw [pollLoop_step_done env name f st regs hA] at hs
      simp at hs
    | fail e u regs =>
      rw [pollLoop_step_fail env name f st e u regs hA] at hs ⊢
      exact ih (stepSt st u e regs) (by simp) hs

theorem pollLoop_fail_err (env : ComputeEnv) (name : String) (fuel : Nat) (st : LoopSt)
    (hs : (pollLoop env name (fuel + 1) st).success = false) :
    (pollLoop env name (fuel + 1) st).err.isSome := by
  cases hA : attemptStep env name st.i st.sshIdx st.regs with
  | done regs =>
    rw [pollLoop_step_done env name fuel st regs hA] at hs
    simp at hs
  | fail e u regs =>
    rw [pollLoop_step_fail env name fuel st e u regs hA] at hs ⊢
    exact pollLoop_fail_err_of_some env name fuel _ (by simp) hs

theorem pollLoop_sleep (env : ComputeEnv) (name : String) :
    ∀ (fuel : Nat) (st : LoopSt), 1 ≤ st.i →
      (pollLoop env name fuel st).sleepSec
        = st.sleepSec + 20 * ((pollLoop env name fuel st).polls - st.i) := by
  intro fuel
  induction fuel with
  | zero => intro st _; simp [pollLoop]
  | succ f ih =>
    intro st hi
    have hgt : st.i > 0 := hi
    cases hA : attemptStep env name st.i st.sshIdx st.regs with
    | done regs =>
      rw [pollLoop_step_done env name f st regs hA]
      simp [hgt]
    | fail e u regs =>
      rw [pollLoop_step_fail env name f st e u regs hA]
      have h1 := ih (stepSt st u e regs) (by simp)
      have h2 := pollLoop_polls_ge env name f (stepSt st u e regs)
      simp only [stepSt_i, stepSt_sleepSec] at h1 h2
      rw [if_pos hgt] at h1
      omega

theorem pollLoop_sleep_zero (env : ComputeEnv) (name : String) (fuel : Nat) (st : LoopSt)
    (hi : st.i = 0) (hs : st.sleepSec = 0) :
    (pollLoop env name (fuel + 1) st).sleepSec
      = 20 * ((pollLoop env name (fuel + 1) st).polls - 1) := by
  cases hA : attemptStep env name st.i st.sshIdx st.regs with
  | done regs =>
    rw [pollLoop_step_done env name fuel st regs hA]
    simp [hi, hs]
  | fail e u regs =>
    rw [pollLoop_step_fail env name fuel st e u regs hA]
    have h1 := pollLoop_sleep env name fuel (stepSt st u e regs) (by simp)
    simp only [stepSt_i, stepSt_sleepSec, hi, hs] at h1
    simpa using h1

theorem pollLoop_ssh_le (env : ComputeEnv) (name : String) :
    ∀ (fuel : Nat) (st : LoopSt), st.sshIdx ≤ st.i →
      (pollLoop env name fuel st).sshCalls ≤ (pollLoop env name fuel st).polls := by
  intro fuel
  induction fuel with
  | zero => intro st h; simpa [pollLoop] using h
  | succ f ih =>
    intro st h
    cases hA : attemptStep env name st.i st.sshIdx st.regs with
    | done regs => rw [pollLoop_step_done env name f st regs hA]; simp; omega
    | fail e u regs =>
      rw [pollLoop_step_fail env name f st e u regs hA]
      apply ih
      simp only [stepSt_i, stepSt_sshIdx]
      cases u <;> simp <;> omega

theorem createInstance_eq_pollLoop (env : ComputeEnv) (pfx img : String)
    (h1 : env.insertRes.err = none) (h2 : env.insertRes.opError = none) :
    createInstance env pfx img
      = pollLoop env (imageToInstanceName pfx img) 30 st0 := by
  simp [createInstance, h1, h2, st0]

theorem createInstance_polls_le (env : ComputeEnv) (pfx img : String) :
    (createInstance env pfx img).polls ≤ 30 := by
  unfold createInstance
  cases h1 : env.insertRes.err with
  | some e => simp
  | none =>
    cases h2 : env.insertRes.opError with
    | some oe => simp
    | none =>
      simp only []
      have := pollLoop_polls_le env (imageToInstanceName pfx img) 30 st0
      simpa [st0] using this

theorem createInstance_fail_exhausts (env : ComputeEnv) (pfx img : String)
    (h1 : env.insertRes.err = none) (h2 : env.insertRes.opError = none)
    (hs : (createInstance env pfx img).success = false) :
    (createInstance env pfx img).polls = 30 ∧ (createInstance env pfx img).err.isSome := by
  rw [createInstance_eq_pollLoop env pfx img h1 h2] at hs ⊢
  constructor
  · have := pollLoop_fail_polls env (imageToInstanceName pfx img) 30 st0 hs
    simpa [st0] using this
  · have h30 : (30 : Nat) = 29 + 1 := rfl
    rw [h30] at hs ⊢
    exact pollLoop_fail_err env (imageToInstanceName pfx img) 29 st0 hs

theorem createInstance_sleep (env : ComputeEnv) (pfx img : String)
    (h1 : env.insertRes.err = none) (h2 : env.insertRes.opError = none) :
    (createInstance env pfx img).sleepSec
      = 20 * ((createInstance env pfx img).polls - 1) := by
  rw [createInstance_eq_pollLoop env pfx img h1 h2]
  have h30 : (30 : Nat) = 29 + 1 := rfl
  rw [h30]
  exact pollLoop_sleep_zero env (imageToInstanceName pfx img) 29 st0 rfl rfl

theorem createInstance_ssh_le_polls (env : ComputeEnv) (pfx img : String) :
    (createInstance env pfx img).sshCalls ≤ (createInstance env pfx img).polls := by
  unfold createInstance
  cases h1 : env.insertRes.err with
  | some e => simp
  | none =>
    cases h2 : env.insertRes.opError with
    | some oe => simp
    | none =>
      simp only []
      exact pollLoop_ssh_le env (imageToInstanceName pfx img) 30 st0 (by simp [st0])

theorem getArchiveIter_done (build : String × Option String) :
    ∀ (n : Nat) (w : World), w.arc.done = true →
      getArchiveIter build n w = (List.replicate n (w.arc.path, w.arc.err), w, 0) := by
  intro n
  induction n with
  | zero => intro w h; simp [getArchiveIter]
  | succ m ih =>
    intro w h
    simp [getArchiveIter, getArchiveW, h, ih w h, List.replicate_succ]

theorem loopExitOk_foldl (l : List TestResult) (b : Bool) :
    l.foldl (fun acc tr => acc && tr.exitOk) b = (b && l.all (fun tr => tr.exitOk)) := by
  induction l generalizing b with
  | nil => simp
  | cons x xs ih => simp [List.foldl_cons, ih, Bool.and_assoc]

theorem loopExitOk_eq_all (l : List TestResult) :
    loopExitOk l = l.all (fun tr => tr.exitOk) := by
  simpa [loopExitOk] using loopExitOk_foldl l true

theorem perm_all_eq {α : Type} (p : α → Bool) {l₁ l₂ : List α} (h : l₁.Perm l₂) :
    l₁.all p = l₂.all p := by
  induction h with
  | nil => rfl
  | cons x _ ih => simp [List.all_cons, ih]
  | swap x y l => simp [List.all_cons, Bool.and_left_comm]
  | trans _ _ ih₁ ih₂ => exact ih₁.trans ih₂

theorem loopExitOk_false_of_mem {tr : TestResult} {l : List TestResult}
    (hm : tr ∈ l) (hf : tr.exitOk = false) : loopExitOk l = false := by
  rw [loopExitOk_eq_all]
  exact List.all_eq_false.mpr ⟨tr, hm, by simp [hf]⟩

theorem osRemove_idem (p : String) (fs : List String) :
    osRemove p (osRemove p fs) = osRemove p fs := by
  simp [osRemove, List.filter_filter]

theorem osRemove_append_fresh (p : String) (fs : List String) (h : ¬ p ∈ fs) :
    osRemove p (fs ++ [p]) = fs := by
  simp only [osRemove, List.filter_append]
  have h1 : List.filter (fun q => q != p) [p] = [] := by simp
  have h2 : List.filter (fun q => q != p) fs = fs := by
    apply List.filter_eq_self.mpr
    intro a ha
    simp only [bne_iff_ne, ne_eq]
    intro hEq
    exact h (hEq ▸ ha)
  rw [h1, h2, List.append_nil]

/-! ## Claim theorems -/

/-- C1: for a target list of size K (image-based targets plus fixed hosts),
the main receive loop collects exactly K TestResults in whatever order they
arrive, the overall success flag is the AND of all K `exitOk` fields, and the
process exits 0 when that AND is true and 1 otherwise. -/
theorem C1_receive_loop_collects_all (c : MainCfg) (arrival : List TestResult)
    (hp : arrival.Perm (spawnResults c)) :
    arrival.length = c.images.length + c.hosts.length ∧
    loopExitOk arrival = (spawnResults c).all (fun tr => tr.exitOk) ∧
    (mainOutcome arrival).exitCode
      = (if (spawnResults c).all (fun tr => tr.exitOk) then 0 else 1) := by
  have hall : loopExitOk arrival = (spawnResults c).all (fun tr => tr.exitOk) := by
    rw [loopExitOk_eq_all]
    exact perm_all_eq _ hp
  refine ⟨?_, hall, ?_⟩
  · rw [hp.length_eq]
    simp [spawnResults]
  · simp only [mainOutcome, hall]
    cases hb : (spawnResults c).all (fun tr => tr.exitOk) <;> simp

/-- Witness for C1 at a concrete one-image, one-host run whose results
arrive in reversed order. -/
theorem C1_witness :
    ((spawnResults cfgC1).reverse).length = cfgC1.images.length + cfgC1.hosts.length ∧
    loopExitOk ((spawnResults cfgC1).reverse) = (spawnResults cfgC1).all (fun tr => tr.exitOk) ∧
    (mainOutcome ((spawnResults cfgC1).reverse)).exitCode
      = (if (spawnResults cfgC1).all (fun tr => tr.exitOk) then 0 else 1) :=
  C1_receive_loop_collects_all cfgC1 ((spawnResults cfgC1).reverse) (List.reverse_perm _)

/-- C2: for every number n ≥ 1 of (serialized) calls to `getArchive` starting
from the fresh process state, `CreateTestArchive` runs exactly once, and
every call observes the identical `(path, error)` pair. -/
theorem C2_archive_built_once (build : String × Option String) (fs0 : List String)
    (n : Nat) (hn : 1 ≤ n) :
    (getArchiveIter build n ⟨arcInit, fs0⟩).2.2 = 1 ∧
    ∀ r ∈ (getArchiveIter build n ⟨arcInit, fs0⟩).1, r = build := by
  obtain ⟨m, rfl⟩ : ∃ m, n = m + 1 := ⟨n - 1, by omega⟩
  have hw : getArchiveW build ⟨arcInit, fs0⟩
      = ((build.1, build.2), ⟨⟨true, build.1, build.2⟩, buildFs build fs0⟩, 1) := by
    simp [getArchiveW, arcInit]
  have hrest := getArchiveIter_done build m ⟨⟨true, build.1, build.2⟩, buildFs build fs0⟩ rfl
  have hiter : getArchiveIter build (m + 1) ⟨arcInit, fs0⟩
      = ((build.1, build.2) :: List.replicate m (build.1, build.2),
         ⟨⟨true, build.1, build.2⟩, buildFs build fs0⟩, 1) := by
    simp [getArchiveIter, hw, hrest]
  rw [hiter]
  refine ⟨rfl, ?_⟩
  intro r hr
  simp only [List.mem_cons, List.mem_replicate] at hr
  rcases hr with h | ⟨-, h⟩ <;> exact h

/-- Witness for C2: three sequential calls, one construction, all results
identical. -/
theorem C2_witness :
    (getArchiveIter ("/tmp/e2e.tar.gz", none) 3 ⟨arcInit, []⟩).2.2 = 1 ∧
    ∀ r ∈ (getArchiveIter ("/tmp/e2e.tar.gz", (none : Option String)) 3 ⟨arcInit, []⟩).1,
      r = ("/tmp/e2e.tar.gz", none) :=
  C2_archive_built_once ("/tmp/e2e.tar.gz", none) [] 3 (by decide)

/-- C3: provisioning polling is bounded — at most 30 attempts with a fixed
20-second delay between consecutive attempts; a failing poll (non-running
status or read error) consumes one attempt without ending the loop, so a run
that never succeeds uses exactly 30 polls and returns a non-nil error; that
error is fatal only to its own target: `testImage` turns it into this
target's failing `TestResult` instead of aborting the process. -/
theorem C3_provisioning_bounded (cenv : ComputeEnv) (pfx img : String)
    (h1 : cenv.insertRes.err = none) (h2 : cenv.insertRes.opError = none) :
    (createInstance cenv pfx img).polls ≤ 30 ∧
    (createInstance cenv pfx img).sleepSec
      = 20 * ((createInstance cenv pfx img).polls - 1) ∧
    ((createInstance cenv pfx img).success = false →
      (createInstance cenv pfx img).polls = 30 ∧
      (createInstance cenv pfx img).err.isSome) ∧
    (∀ (henvOf : String → HostEnv) (arcRes : String × Option String)
       (dif cf : Bool) (dErr : Option String),
      (createInstance cenv pfx img).err.isSome →
        (testImage cenv henvOf arcRes pfx img dif cf dErr).result.exitOk = false ∧
        (testImage cenv henvOf arcRes pfx img dif cf dErr).result.err.isSome) := by
  refine ⟨createInstance_polls_le cenv pfx img, createInstance_sleep cenv pfx img h1 h2,
    createInstance_fail_exhausts cenv pfx img h1 h2, ?_⟩
  intro henvOf arcRes dif cf dErr he
  obtain ⟨e, he⟩ := Option.isSome_iff_exists.mp he
  simp [testImage, he]

/-- Witness for C3: a backend whose polls always error exhausts exactly the
30-attempt budget, sleeps 20 s between consecutive attempts (580 s total),
returns a non-nil error, and its `testImage` target fails without affecting
the process. -/
theorem C3_witness :
    (createInstance envAllErr "tmp-node" "img").polls = 30 ∧
    (createInstance envAllErr "tmp-node" "img").err.isSome ∧
    (createInstance envAllErr "tmp-node" "img").sleepSec = 580 ∧
    (testImage envAllErr (fun _ => henvRunOk) arcOk "tmp-node" "img" true true
      none).result.exitOk = false := by
  obtain ⟨hle, hsleep, hex, hiso⟩ := C3_provisioning_bounded envAllErr "tmp-node" "img" rfl rfl
  have hs : (createInstance envAllErr "tmp-node" "img").success = false := by decide
  obtain ⟨hp, he⟩ := hex hs
  refine ⟨hp, he, ?_, (hiso (fun _ => henvRunOk) arcOk true true none he).1⟩
  rw [hsleep, hp]

/-- C4: a failed workload-runtime verification probe consumes an attempt from
the same 30-attempt budget as status polling (no separate budget): with the
spec's simulated backend — running on the 3rd status poll, probe succeeding
immediately — provisioning succeeds after exactly 3 status polls and exactly
1 verification call; with a backend whose probe never matches, every probe
failure consumes a poll attempt and the single budget is exhausted at 30; in
general the probe count never exceeds the poll count, which never exceeds
30. -/
theorem C4_verification_same_budget :
    ((createInstance envC4 "tmp-node" "img").success = true ∧
     (createInstance envC4 "tmp-node" "img").polls = 3 ∧
     (createInstance envC4 "tmp-node" "img").sshCalls = 1 ∧
     (createInstance envC4 "tmp-node" "img").err = none) ∧
    ((createInstance envProbeFail "tmp-node" "img").success = false ∧
     (createInstance envProbeFail "tmp-node" "img").polls = 30 ∧
     (createInstance envProbeFail "tmp-node" "img").sshCalls = 30) ∧
    (∀ (cenv : ComputeEnv) (pfx img : String),
      (createInstance cenv pfx img).sshCalls ≤ (createInstance cenv pfx img).polls ∧
      (createInstance cenv pfx img).polls ≤ 30) := by
  refine ⟨by decide, by decide, fun cenv pfx img =>
    ⟨createInstance_ssh_le_polls cenv pfx img, createInstance_polls_le cenv pfx img⟩⟩

/-- Counterexample to C5 as stated: with the `--delete-instances` flag false,
an image-based target issues no instance deletion at all (the claim asserts
deletion is invoked exactly once for every image-based target regardless of
outcome, without conditioning on the flag). -/
theorem C5_counterexample :
    (testImage envC4 (fun _ => henvRunOk) arcOk "tmp-node" "img" false true
      none).deleteCalls = 0 := by decide

/-- C5 (amended): when the `--delete-instances` flag is true (its default),
`deleteInstance` is invoked exactly once per image-based target regardless of
whether provisioning or execution succeeded or failed; with the flag false it
is never invoked; and the deletion outcome (`d1` vs `d2`) never influences
the target's `TestResult`. -/
theorem C5_delete_once_when_flagged (cenv : ComputeEnv) (henvOf : String → HostEnv)
    (arcRes : String × Option String) (pfx img : String) (cf : Bool)
    (d1 d2 : Option String) :
    (testImage cenv henvOf arcRes pfx img true cf d1).deleteCalls = 1 ∧
    (testImage cenv henvOf arcRes pfx img false cf d1).deleteCalls = 0 ∧
    (testImage cenv henvOf arcRes pfx img true cf d1).result
      = (testImage cenv henvOf arcRes pfx img true cf d2).result := by
  refine ⟨?_, ?_, rfl⟩ <;>
    · simp only [testImage]
      cases h : (createInstance cenv pfx img).err <;> simp [h]

/-- C6: a target whose remote command ran and exited non-zero yields
`exitOk = false` with `err = nil`; a target whose compute lookup failed
yields `exitOk = false` with a non-nil `err`; `exitOk = true` can only come
out of an actually-performed remote execution (with the remote error passed
through, so an adapter honouring its contract cannot combine `exitOk = true`
with a transport error); and a provisioning failure yields `exitOk = false`
with a non-nil `err`. -/
theorem C6_exitOk_classification (env : HostEnv) (arcRes : String × Option String)
    (host : String) (df : Bool) :
    (∀ inst, env.getInstance = GetResult.ok inst → strToUpper inst.status = "RUNNING" →
      arcRes.2 = none → env.runRemote.exitOk = false → env.runRemote.err = none →
      (testHost env arcRes host df).1.exitOk = false ∧
      (testHost env arcRes host df).1.err = none) ∧
    (∀ e, env.getInstance = GetResult.err e →
      (testHost env arcRes host df).1.exitOk = false ∧
      (testHost env arcRes host df).1.err = some e) ∧
    ((testHost env arcRes host df).1.exitOk = true →
      (testHost env arcRes host df).2.remoteCalled = true ∧
      (testHost env arcRes host df).1.err = env.runRemote.err) ∧
    (∀ (cenv : ComputeEnv) (henvOf : String → HostEnv) (pfx img : String)
       (dif cf : Bool) (dErr : Option String) (e : String),
      (createInstance cenv pfx img).err = some e →
      (testImage cenv henvOf arcRes pfx img dif cf dErr).result.exitOk = false ∧
      (testImage cenv henvOf arcRes pfx img dif cf dErr).result.err.isSome) := by
  refine ⟨?_, ?_, ?_, ?_⟩
  · intro inst hg hrun harc hx he
    simp [testHost, hg, hrun, harc, hx, he]
  · intro e hg
    simp [testHost, hg]
  · intro hx
    cases hg : env.getInstance with
    | err e => simp [testHost, hg] at hx
    | ok inst =>
      cases hr : (strToUpper inst.status != "RUNNING") with
      | true => simp [testHost, hg, hr] at hx
      | false =>
        cases harc : arcRes.2 with
        | some e => simp [testHost, hg, hr, harc] at hx
        | none => simp [testHost, hg, hr, harc]
  · intro cenv henvOf pfx img dif cf dErr e he
    simp [testImage, he]

/-- Witness for C6: concrete assertion-failure and unreachable-host targets. -/
theorem C6_witness :
    ((testHost henvAssertFail arcOk "host-a" false).1.exitOk = false ∧
     (testHost henvAssertFail arcOk "host-a" false).1.err = none) ∧
    ((testHost henvUnreach arcOk "host-b" false).1.exitOk = false ∧
     (testHost henvUnreach arcOk "host-b" false).1.err = some "dial tcp: i/o timeout") ∧
    (testImage envAllErr (fun _ => henvRunOk) arcOk "tmp-node" "img" true true
      none).result.err.isSome := by
  refine ⟨?_, ?_, ?_⟩
  · exact (C6_exitOk_classification henvAssertFail arcOk "host-a" false).1 instRunning rfl
      (by decide) rfl rfl rfl
  · exact (C6_exitOk_classification henvUnreach arcOk "host-b" false).2.1 "dial tcp: i/o timeout" rfl
  · exact ((C6_exitOk_classification henvRunOk arcOk "unused" false).2.2.2 envAllErr
      (fun _ => henvRunOk) "tmp-node" "img" true true none
      ((createInstance envAllErr "tmp-node" "img").err.get (by decide)) (by decide)).2

/-- C7 (code bug): `main` registers `defer arc.deleteArchive()` but exits a
failing run via `os.Exit(1)`, and `os.Exit` terminates without running
deferred functions — so on every failing run (exit code 1) the bundle is NOT
deleted, while a fully successful run returns normally and the deferred
deletion runs.  This contradicts the claim that the bundle is deleted as the
final step regardless of outcome. -/
theorem C7_exit1_skips_deferred_delete :
    (mainOutcome [trC7fail]).exitCode = 1 ∧
    (mainOutcome [trC7fail]).deferredDeleteRan = false ∧
    (mainOutcome [trC7ok]).exitCode = 0 ∧
    (mainOutcome [trC7ok]).deferredDeleteRan = true := by decide

/-- Counterexample to C8 as stated: a failed bundle construction is not
process-fatal and does not surface immediately — a two-host run whose shared
archive pair carries a build error still produces a `TestResult` for every
target (2 of 2 collected), never invokes remote execution, and exits through
the ordinary aggregate path with code 1. -/
theorem C8_counterexample :
    (spawnResults cfgC8).length = 2 ∧
    (∀ r ∈ spawnResults cfgC8, r.err.isSome ∧ r.exitOk = false) ∧
    (mainOutcome (spawnResults cfgC8)).exitCode = 1 ∧
    (testHost (cfgC8.henvOf "h1") cfgC8.arcRes "h1" cfgC8.cleanupFlag).2.remoteCalled
      = false := by decide

/-- C8 (amended): a bundle construction error is shared by all targets — any
target that reaches the bundle read returns `TestResult` with the wrapped
build error, `exitOk = false`, an empty `host` field and no remote execution,
and any run containing such a result exits 1; the error is target-by-target,
not an immediate process abort. -/
theorem C8_build_error_fails_every_target (env : HostEnv) (arcRes : String × Option String)
    (host : String) (df : Bool) (e : String) (inst : Instance)
    (hg : env.getInstance = GetResult.ok inst) (hrun : strToUpper inst.status = "RUNNING")
    (harc : arcRes.2 = some e) :
    (testHost env arcRes host df).1
      = ⟨"", some ("unable to create test archive " ++ e ++ "."), "", false⟩ ∧
    (testHost env arcRes host df).2.remoteCalled = false ∧
    ∀ arrival, (testHost env arcRes host df).1 ∈ arrival →
      (mainOutcome arrival).exitCode = 1 := by
  have ht : (testHost env arcRes host df).1
      = ⟨"", some ("unable to create test archive " ++ e ++ "."), "", false⟩ := by
    simp [testHost, hg, hrun, harc]
  refine ⟨ht, by simp [testHost, hg, hrun, harc], ?_⟩
  intro arrival hm
  have hfalse : loopExitOk arrival = false :=
    loopExitOk_false_of_mem hm (by rw [ht])
  simp [mainOutcome, hfalse]

/-- Witness for C8's amended theorem at a concrete host and failed build. -/
theorem C8_witness :
    (testHost henvRunOk arcBad "h1" true).1
      = ⟨"", some ("unable to create test archive " ++ "build failed" ++ "."), "", false⟩ ∧
    (testHost henvRunOk arcBad "h1" true).2.remoteCalled = false ∧
    ∀ arrival, (testHost henvRunOk arcBad "h1" true).1 ∈ arrival →
      (mainOutcome arrival).exitCode = 1 :=
  C8_build_error_fails_every_target henvRunOk arcBad "h1" true "build failed" instRunning
    rfl (by decide) rfl

/-- C9: `deleteArchive` is idempotent on the whole process state (archive
memo and disk); calling it when a construction already failed changes
nothing; calling it when construction never ran triggers the one
construction and, net, removes nothing that was on disk before (for a
fresh artifact path), and when that triggered construction fails the disk is
untouched. -/
theorem C9_deleteArchive_idempotent (build : String × Option String) (w : World) :
    deleteArchiveW build (deleteArchiveW build w) = deleteArchiveW build w ∧
    (w.arc.done = true → w.arc.err.isSome → deleteArchiveW build w = w) ∧
    (w.arc.done = false → build.2.isSome → (deleteArchiveW build w).fs = w.fs) ∧
    (w.arc.done = false → build.2 = none → ¬ build.1 ∈ w.fs →
      (deleteArchiveW build w).fs = w.fs) := by
  refine ⟨?_, ?_, ?_, ?_⟩
  · cases hd : w.arc.done with
    | true =>
      cases he : w.arc.err with
      | some E => simp [deleteArchiveW, getArchiveW, hd, he]
      | none =>
        simp [deleteArchiveW, getArchiveW, hd, he, osRemove_idem]
    | false =>
      cases hb : build.2 with
      | some E => simp [deleteArchiveW, getArchiveW, hd, hb]
      | none => simp [deleteArchiveW, getArchiveW, hd, hb, osRemove_idem]
  · intro hd he
    obtain ⟨E, he⟩ := Option.isSome_iff_exists.mp he
    simp [deleteArchiveW, getArchiveW, hd, he]
  · intro hd hb
    obtain ⟨E, hb⟩ := Option.isSome_iff_exists.mp hb
    simp [deleteArchiveW, getArchiveW, hd, hb, buildFs]
  · intro hd hb hm
    simp [deleteArchiveW, getArchiveW, hd, hb, buildFs, hm,
      osRemove_append_fresh build.1 w.fs hm]

/-- Witness for C9: deleting twice from a fresh state equals deleting once,
and a delete-before-build with a fresh path leaves the prior disk intact. -/
theorem C9_witness :
    deleteArchiveW ("/a.tar", none) (deleteArchiveW ("/a.tar", none) ⟨arcInit, ["/keep"]⟩)
      = deleteArchiveW ("/a.tar", none) ⟨arcInit, ["/keep"]⟩ ∧
    (deleteArchiveW ("/a.tar", none) ⟨arcInit, ["/keep"]⟩).fs = ["/keep"] ∧
    (deleteArchiveW ("", some "boom") ⟨arcInit, ["/keep"]⟩).fs = ["/keep"] :=
  ⟨(C9_deleteArchive_idempotent ("/a.tar", none) ⟨arcInit, ["/keep"]⟩).1,
   (C9_deleteArchive_idempotent ("/a.tar", none) ⟨arcInit, ["/keep"]⟩).2.2.2 rfl rfl (by decide),
   (C9_deleteArchive_idempotent ("", some "boom") ⟨arcInit, ["/keep"]⟩).2.2.1 rfl rfl⟩

/-- C10: for every host name given to `testHost` — `main` passes each fixed
`--hosts` entry straight to it, see `spawnResults` — the compute lookup is
consulted first: a lookup error or a non-RUNNING status yields an
infrastructure-failure result (`exitOk = false`, non-nil `err`) with neither
the bundle read nor remote execution attempted, and the bundle is only ever
read after a successful lookup reporting RUNNING. -/
theorem C10_host_gated_on_compute_lookup (env : HostEnv) (arcRes : String × Option String)
    (host : String) (cf : Bool) :
    (∀ e, env.getInstance = GetResult.err e →
      (testHost env arcRes host cf).1.err = some e ∧
      (testHost env arcRes host cf).1.exitOk = false ∧
      (testHost env arcRes host cf).2.archiveRead = false ∧
      (testHost env arcRes host cf).2.remoteCalled = false) ∧
    (∀ inst, env.getInstance = GetResult.ok inst → strToUpper inst.status ≠ "RUNNING" →
      (testHost env arcRes host cf).1.err.isSome ∧
      (testHost env arcRes host cf).1.exitOk = false ∧
      (testHost env arcRes host cf).2.archiveRead = false ∧
      (testHost env arcRes host cf).2.remoteCalled = false) ∧
    ((testHost env arcRes host cf).2.archiveRead = true →
      ∃ inst, env.getInstance = GetResult.ok inst ∧ strToUpper inst.status = "RUNNING") := by
  refine ⟨?_, ?_, ?_⟩
  · intro e hg
    simp [testHost, hg]
  · intro inst hg hrun
    simp [testHost, hg, hrun]
  · intro hread
    cases hg : env.getInstance with
    | err e => simp [testHost, hg] at hread
    | ok inst =>
      refine ⟨inst, rfl, ?_⟩
      cases hr : (strToUpper inst.status != "RUNNING") with
      | true => simp [testHost, hg, hr] at hread
      | false => simpa using hr

/-- Witness for C10: an unreachable host and a stopped host are rejected
before any bundle or remote activity. -/
theorem C10_witness :
    ((testHost henvUnreach arcOk "host-b" true).1.err = some "dial tcp: i/o timeout" ∧
     (testHost henvUnreach arcOk "host-b" true).1.exitOk = false ∧
     (testHost henvUnreach arcOk "host-b" true).2.archiveRead = false ∧
     (testHost henvUnreach arcOk "host-b" true).2.remoteCalled = false) ∧
    ((testHost henvStopped arcOk "host-c" true).1.err.isSome ∧
     (testHost henvStopped arcOk "host-c" true).1.exitOk = false ∧
     (testHost henvStopped arcOk "host-c" true).2.archiveRead = false ∧
     (testHost henvStopped arcOk "host-c" true).2.remoteCalled = false) :=
  ⟨(C10_host_gated_on_compute_lookup henvUnreach arcOk "host-b" true).1
      "dial tcp: i/o timeout" rfl,
   (C10_host_gated_on_compute_lookup henvStopped arcOk "host-c" true).2.1
      instStopped rfl (by decide)⟩
